import Mathlib

/-!
Shallow embedding of the moderation/logging bot cogs of this repository:
`bot/cogs/logging/server_log.py`, `bot/cogs/logging/voice_log.py` and
`bot/cogs/sudo.py`, together with theorems settling the specification
claims about them.

Conventions of the embedding:
* snapshots, embeds and effects are plain inductive data;
* Python functions that can raise become `Except String`-valued
  (the only reachable raise here is the unbound local `channel_type`
  in `_channel_permissions_diff_embed`);
* the chat platform's permission model (`discord.PermissionOverwrite`)
  is represented by its iteration result: an association list from
  permission-flag name to tri-state value (`Option Bool`).
-/

/-- Kind of a guild channel: `TextChannel`, `VoiceChannel`,
`CategoryChannel`, or any other `GuildChannel` subclass
(stage/store channels); `isinstance` checks in the source
become matches on this kind. -/
inductive ChannelKind
| text
| voice
| category
| other
deriving DecidableEq

/-- A permission subject is a role or a member — the keys of
`channel.overwrites`. -/
inductive SubjectKind
| role
| member
deriving DecidableEq

/-- A role or member; on the platform, equality of these objects
compares ids, and the mention string is derived from kind and id. -/
structure Subject where
  kind : SubjectKind
  id : Nat
deriving DecidableEq

/-- Platform mention string of a subject (`role.mention` or
`member.mention`). -/
def Subject.mention (s : Subject) : String :=
  match s.kind with
  | .role => "<@&" ++ toString s.id ++ ">"
  | .member => "<@" ++ toString s.id ++ ">"

/-- The platform's channel-permission flag names, in the iteration
order of `discord.PermissionOverwrite` (external contract of the chat
platform's client library; every overwrite iterates as
`(name, Optional[bool])` pairs over exactly these names). -/
def permissionNames : List String :=
  ["create_instant_invite", "kick_members", "ban_members", "administrator",
   "manage_channels", "manage_guild", "add_reactions", "view_audit_log",
   "priority_speaker", "stream", "read_messages", "send_messages",
   "send_tts_messages", "manage_messages", "embed_links", "attach_files",
   "read_message_history", "mention_everyone", "external_emojis",
   "view_guild_insights", "connect", "speak", "mute_members",
   "deafen_members", "move_members", "use_voice_activation",
   "change_nickname", "manage_nicknames", "manage_roles",
   "manage_webhooks", "manage_emojis"]

/-- A `discord.PermissionOverwrite`, as the list of
`(permission-name, tri-state value)` pairs its iteration yields. -/
abbrev PermOverwrite := List (String × Option Bool)

/-- The default overwrite object the platform returns for a subject
with no stored overwrite: every permission unset. -/
def emptyOverwrite : PermOverwrite :=
  permissionNames.map (fun n => (n, (none : Option Bool)))

/-- Build an overwrite from a tri-state valuation of the flag names. -/
def mkOverwrite (v : String → Option Bool) : PermOverwrite :=
  permissionNames.map (fun n => (n, v n))

/-- Immutable view of a guild channel at one point in time, holding the
attributes the formatter reads (`server_log.py` field lists). `category`
is the containing category's rendering (its name), `none` when the
channel has no category; `topic` is `None`-able in the platform model.
`objectId` is the Python object identity of this snapshot object — it
matters because reading a method attribute without calling it yields a
bound method, whose equality compares the underlying object by
identity; the event dispatcher hands `before` over as a copy, so the
two snapshots of one update are always distinct objects. -/
structure ChannelSnapshot where
  kind : ChannelKind
  objectId : Nat := 0
  id : Nat
  name : String
  topic : Option String := none
  is_nsfw : Bool := false
  slowmode_delay : Nat := 0
  bitrate : Nat := 64000
  user_limit : Nat := 0
  category : Option String := none
  overwrites : List (Subject × PermOverwrite) := []
deriving DecidableEq

/-- Platform mention string of a channel. -/
def ChannelSnapshot.mention (c : ChannelSnapshot) : String :=
  "<#" ++ toString c.id ++ ">"

/-- Lookup of a subject's stored overwrite in the `overwrites`
association list (dict lookup; keys compare by subject equality). -/
def lookupOverwrite : List (Subject × PermOverwrite) → Subject → Option PermOverwrite
  | [], _ => none
  | (k, v) :: rest, s => if k = s then some v else lookupOverwrite rest s

/-- `channel.overwrites_for(subject)`: the stored overwrite, or the
default all-unset overwrite when the subject has none. -/
def ChannelSnapshot.overwrites_for (c : ChannelSnapshot) (s : Subject) : PermOverwrite :=
  match lookupOverwrite c.overwrites s with
  | some o => o
  | none => emptyOverwrite

/-- Message colors used by the cogs (`discord.Color` constructors). -/
inductive MsgColor
| blue
| dark_blue
| dark_orange
| red
deriving DecidableEq

/-- One field of an embed (`Embed.add_field`). -/
structure EmbedField where
  name : String
  value : String
  inline : Bool
deriving DecidableEq

/-- A rich-message embed as the cogs build it: title, description,
color, added fields, optional thumbnail url, and whether
`embed.timestamp` was assigned (the value of the wall-clock timestamp
itself is not modelled). -/
structure Embed where
  title : String
  description : String
  color : MsgColor
  fields : List EmbedField := []
  thumbnail : Option String := none
  hasTimestamp : Bool := false
deriving DecidableEq

/-- Python `str.capitalize()`: first character upper-cased, the rest
lower-cased. -/
def pyCapitalize (s : String) : String :=
  match s.data with
  | [] => ""
  | c :: rest => String.mk (c.toUpper :: rest.map Char.toLower)

/-- `perm_name = before_perm[0].replace("_", " ").capitalize()`. -/
def permDisplayName (n : String) : String :=
  pyCapitalize (String.mk (n.data.map (fun c => if c = '_' then ' ' else c)))

/-- Tri-state permission value to its emoji symbol:
true → ✅, false → ❌, unset → ⬜. -/
def triEmoji : Option Bool → String
  | some true => "✅"
  | some false => "❌"
  | none => "⬜"

/-- The changed-permission lines for one subject: the loop
`for before_perm, after_perm in zip(before_overwrites, after_overwrites)`
emitting a line for every pair whose values differ. -/
def overwriteDiffLines (bo ao : PermOverwrite) : List String :=
  (bo.zip ao).filterMap fun pq =>
    if pq.1.2 = pq.2.2 then none
    else some ("**`" ++ permDisplayName pq.1.1 ++ ":`** "
      ++ triEmoji pq.1.2 ++ " ➜ " ++ triEmoji pq.2.2)

/-- The union of permission subjects present in either snapshot's
overwrite mapping
(`set(before.overwrites.keys()).union(set(after.overwrites.keys()))`),
in first-appearance order. -/
def overwriteSubjects (cb ca : ChannelSnapshot) : List Subject :=
  let kb := cb.overwrites.map Prod.fst
  let ka := ca.overwrites.map Prod.fst
  kb ++ ka.filter (fun s => ¬ s ∈ kb)

/-- All `embed_lines` of the permission diff: for each subject of the
union whose overwrites differ, a header line naming the subject followed
by its changed-permission lines. -/
def permDiffLines (cb ca : ChannelSnapshot) : List String :=
  (overwriteSubjects cb ca).flatMap fun s =>
    let bo := cb.overwrites_for s
    let ao := ca.overwrites_for s
    if bo = ao then []
    else ("**Overwrite changes for " ++ s.mention ++ ":**") :: overwriteDiffLines bo ao

/-- `channel_type` as assigned by the `isinstance` chain at the top of
`_channel_permissions_diff_embed`; `none` for an unknown kind, for which
the local variable stays unassigned. -/
def channelTypeName : ChannelKind → Option String
  | .text => some "Text channel"
  | .voice => some "Voice channel"
  | .category => some "Category channel"
  | .other => none

/-- `ServerLog._channel_permissions_diff_embed`. Returns `ok none` when
no changed-permission line was produced; otherwise builds the embed —
which reads `channel_type` and therefore raises `UnboundLocalError`
when the channel kind is not text/voice/category. -/
def channel_permissions_diff_embed (cb ca : ChannelSnapshot) : Except String (Option Embed) :=
  let lines := permDiffLines cb ca
  if lines = [] then .ok none
  else
    match channelTypeName cb.kind with
    | none => .error "UnboundLocalError: local variable channel_type referenced before assignment"
    | some ct => .ok (some
        { title := ct ++ " permissions updated"
          description := ca.mention ++ " permissions have been updated.\n\n"
            ++ String.intercalate "\n" lines
          color := .dark_blue })

/-- Value of a channel attribute after the field's value-transform, as
the Python value the f-string compares and renders: a string, a
boolean, a number, `None`, or — when a method attribute is listed
without a calling transform — the `is_nsfw` bound method of the
snapshot object, carrying that object's identity. Python compares
bound methods by function and by the identity of the bound object, so
`vmethod` equality is equality of the object ids. -/
inductive PyVal
| vstr : String → PyVal
| vbool : Bool → PyVal
| vnat : Nat → PyVal
| vnone : PyVal
| vmethod : Nat → PyVal
deriving DecidableEq

/-- Python `str()` of a transformed value, as interpolated by
`f"**{value}:** {param}"`. A bound method renders as
`<bound method CategoryChannel.is_nsfw of <repr of the channel>>`; the
platform's exact object repr is an external detail, so the embedding
renders a placeholder that, like the real repr, distinguishes the
bound object. -/
def PyVal.render : PyVal → String
  | .vstr s => s
  | .vbool b => if b then "True" else "False"
  | .vnat n => toString n
  | .vnone => "None"
  | .vmethod selfId =>
    "<bound method CategoryChannel.is_nsfw of <CategoryChannel object "
      ++ toString selfId ++ ">>"

/-- An optional string attribute as a Python value (`None` or the
string itself). -/
def optStrVal : Option String → PyVal
  | none => .vnone
  | some s => .vstr s

/-- Modelled from the spec: `bot.utils.time.stringify_duration` is not
part of the excerpt; per the spec's ChangeField description it turns a
number of seconds into a human-readable duration such as "Xm Ys". No
claim depends on its exact output, only on it being a function of the
seconds value. -/
def stringify_duration (seconds : Nat) : String :=
  toString (seconds / 60) ++ "m " ++ toString (seconds % 60) ++ "s"

/-- `slowmode_readable = lambda time: stringify_duration(time) if time != 0 else None`. -/
def slowmodeReadable (t : Nat) : PyVal :=
  if t ≠ 0 then .vstr (stringify_duration t) else .vnone

/-- Python `round(bps/1000)` on an integral `bps`: rounding half to
even (banker's rounding), computed on the exact rational `bps/1000`. -/
def pyRoundDiv1000 (bps : Nat) : Nat :=
  let q := bps / 1000
  let r := bps % 1000
  if r > 500 then q + 1
  else if r < 500 then q
  else if q % 2 = 0 then q else q + 1

/-- `readable_bitrate = lambda bps: f"{round(bps/1000)}kbps"`. -/
def readableBitrate (bps : Nat) : PyVal :=
  .vstr (toString (pyRoundDiv1000 bps) ++ "kbps")

/-- One entry of a `check_params` dictionary: the human label and the
function reading the attribute off a snapshot and applying the
value-transform when the entry carries one. -/
structure CheckParam where
  label : String
  value : ChannelSnapshot → PyVal

/-- The body of the `for parameter_name, value in check_params.items()`
loop: one `(before-line, after-line)` pair per parameter whose
transformed values differ, in declaration order. -/
def fieldDiffPairs (cb ca : ChannelSnapshot) (check_params : List CheckParam) :
    List (String × String) :=
  check_params.filterMap fun p =>
    let bv := p.value cb
    let av := p.value ca
    if bv = av then none
    else some ("**" ++ p.label ++ ":** " ++ bv.render,
               "**" ++ p.label ++ ":** " ++ av.render)

/-- `ServerLog._specific_channel_update_embed`: `none` when no compared
parameter differs, otherwise the embed with the two side-by-side
Before/After columns. -/
def specific_channel_update_embed (cb ca : ChannelSnapshot) (title : String)
    (check_params : List CheckParam) : Option Embed :=
  let pairs := fieldDiffPairs cb ca check_params
  if pairs = [] then none
  else some
    { title := title
      description := "**Channel:** " ++ ca.mention
      color := .dark_blue
      fields :=
        [{ name := "Before"
           value := String.intercalate "\n" (pairs.map Prod.fst)
           inline := true },
         { name := "After"
           value := String.intercalate "\n" (pairs.map Prod.snd)
           inline := true }] }

/-- `check_params` of the text-channel branch. `is_nsfw` is a bound
method on the platform object; the tuple's transform calls it, so the
compared value is the flag itself. -/
def textCheckParams : List CheckParam :=
  [{ label := "Name", value := fun c => .vstr c.name },
   { label := "Topic", value := fun c => optStrVal c.topic },
   { label := "NSFW", value := fun c => .vbool c.is_nsfw },
   { label := "Slowmode delay", value := fun c => slowmodeReadable c.slowmode_delay },
   { label := "Category", value := fun c => optStrVal c.category }]

/-- `check_params` of the voice-channel branch. -/
def voiceCheckParams : List CheckParam :=
  [{ label := "Name", value := fun c => .vstr c.name },
   { label := "Bitrate", value := fun c => readableBitrate c.bitrate },
   { label := "User limit", value := fun c => .vnat c.user_limit },
   { label := "Category", value := fun c => optStrVal c.category }]

/-- `check_params` of the category-channel branch. Unlike the text
branch, `is_nsfw` is listed WITHOUT the calling transform, so
`getattr` yields the `is_nsfw` bound method itself: the compared and
rendered value is the bound method, whose equality is identity of the
snapshot object. -/
def categoryCheckParams : List CheckParam :=
  [{ label := "Name", value := fun c => .vstr c.name },
   { label := "NSFW", value := fun c => .vmethod c.objectId }]

/-- `ServerLog.make_channel_update_embed`: the permission branch first,
then the three `isinstance(...) and embed is None` field branches, then
the timestamp assignment on a produced embed. -/
def make_channel_update_embed (cb ca : ChannelSnapshot) : Except String (Option Embed) :=
  let embed0 : Except String (Option Embed) :=
    if cb.overwrites ≠ ca.overwrites then channel_permissions_diff_embed cb ca
    else .ok none
  match embed0 with
  | .error e => .error e
  | .ok embed =>
    let embed1 :=
      if cb.kind = .text ∧ embed = none
      then specific_channel_update_embed cb ca "Text Channel updated" textCheckParams
      else embed
    let embed2 :=
      if cb.kind = .voice ∧ embed1 = none
      then specific_channel_update_embed cb ca "Voice Channel updated" voiceCheckParams
      else embed1
    let embed3 :=
      if cb.kind = .category ∧ embed2 = none
      then specific_channel_update_embed cb ca "Category Channel updated" categoryCheckParams
      else embed2
    .ok (embed3.map fun e => { e with hasTimestamp := true })

/-- A guild, as the logging code observes it: the set of currently
visible channel ids (`guild.get_channel` resolves an id against these). -/
structure Guild where
  channelIds : List Nat
deriving DecidableEq

/-- `guild.get_channel(id)`: the channel when the id is in the guild's
current channel list, otherwise `None`. -/
def Guild.get_channel (g : Guild) (cid : Nat) : Option Nat :=
  if cid ∈ g.channelIds then some cid else none

/-- Modelled from the spec: `bot.database.log_channels.LogChannels.get_log_channel`
is not part of the excerpt. Per the spec (§4.2, §6) the store returns the
configured channel id for `(guild, category)`, or a sentinel absent id when
none is configured; the sentinel never resolves against any guild's channel
list. We represent the store's answer as `Option Nat`, `none` standing for
the sentinel absent id (so `guild.get_channel` on it yields nothing). -/
def StoreAnswer : Type := Option Nat

/-- `ServerLog.send_log` / `MessageLog.send_log`, given the store's
answer for `(category, guild)`: resolve the id against the guild and
either send (returning `true` and the target channel id) or suppress
(returning `false` and no send). The `int(...)` conversion in
`ServerLog.send_log` is the identity on an integral id. -/
def send_log (storeAnswer : Option Nat) (g : Guild) : Bool × Option Nat :=
  match storeAnswer with
  | none => (false, none)
  | some cid =>
    match g.get_channel cid with
    | none => (false, none)
    | some c => (true, some c)

/-- A member's voice state: AFK flag, current channel (rendered by its
name, `none` when disconnected), guild-deafened and guild-muted flags. -/
structure VoiceState where
  afk : Bool
  channel : Option String
  deaf : Bool
  mute : Bool
deriving DecidableEq

/-- The guild member a voice-state update is about. -/
structure Member where
  id : Nat
  avatar_url : String
deriving DecidableEq

/-- Platform mention string of a member. -/
def Member.mention (m : Member) : String :=
  "<@" ++ toString m.id ++ ">"

/-- Python `str()` of an optional voice channel (`None` renders as
"None", a channel renders as its name). -/
def renderOptChannel : Option String → String
  | none => "None"
  | some name => name

/-- The embed built by `MessageLog.on_voice_state_update`, or `none`
when the update is a client action the cog ignores. The channel-change
branch reproduces the source's conditional expression: the
`if after.channel else ""` applies to the WHOLE concatenated f-string,
so the entire description collapses to the empty string when the user
left voice. -/
def on_voice_state_update (member : Member) (before after : VoiceState) : Option Embed :=
  if before.afk ≠ after.afk then
    some { title := if after.afk then "User went AFK" else "User is no longer AFK"
           description := "**User:** " ++ member.mention
           color := .blue
           thumbnail := some member.avatar_url }
  else if before.channel ≠ after.channel then
    some { title := if after.channel.isSome then "User changed channels"
                    else "User left voice channel"
           description :=
             if after.channel.isSome then
               "**User:** " ++ member.mention
                 ++ "\n**Channel:** " ++ renderOptChannel before.channel
                 ++ "\n**New Channel:** " ++ renderOptChannel after.channel
             else ""
           color := .blue
           thumbnail := some member.avatar_url }
  else if before.deaf ≠ after.deaf then
    some { title := if after.deaf then "User deafened" else "User undeafened"
           description := "**User:** " ++ member.mention
           color := .dark_orange
           thumbnail := some member.avatar_url }
  else if before.mute ≠ after.mute then
    some { title := if after.mute then "User silenced" else "User unsilenced"
           description := "**User:** " ++ member.mention
           color := .dark_orange
           thumbnail := some member.avatar_url }
  else
    none

/-- The administrative commands of the `sudo` group (`bot/cogs/sudo.py`). -/
inductive SudoCmd
| shutdown
| restart
| load (ext : Option String)
| reload (ext : Option String)
| unload (ext : Option String)
| stats
deriving DecidableEq

/-- Observable side effects a sudo command can perform. -/
inductive SudoEffect
| addReaction (emoji : String)
| closeBot
| systemCmd (cmd : String)
| loadExtension (e : String)
| unloadExtension (e : String)
| sendOk
| sendTraceback
| sendStats
| sendOwnerOnly
deriving DecidableEq

/-- Bot state the sudo commands read: the full extension list and which
extension operations raise a `DiscordException`. -/
structure BotState where
  extension_list : List String
  loadFails : String → Bool
  unloadFails : String → Bool

/-- `if not extension: extension = self.bot.extension_list
else: extension = [f"bot.cogs.{extension}"]` — `None` and the empty
string are both falsy. -/
def extTargets (bot : BotState) (ext : Option String) : List String :=
  match ext with
  | none => bot.extension_list
  | some e => if e = "" then bot.extension_list else ["bot.cogs." ++ e]

/-- Effects of one sudo command body, for a given author. The
`shutdown` and `restart` bodies re-check the allow-list themselves. -/
def sudoBody (devs : List Nat) (bot : BotState) (authorId : Nat) : SudoCmd → List SudoEffect
  | .shutdown =>
    if authorId ∈ devs then [.addReaction "✅", .closeBot] else []
  | .restart =>
    if authorId ∈ devs then [.addReaction "✅", .closeBot, .systemCmd "pipenv run start"]
    else []
  | .load ext =>
    (extTargets bot ext).flatMap fun e =>
      if bot.loadFails e then [.sendTraceback] else [.loadExtension e, .sendOk]
  | .reload ext =>
    (extTargets bot ext).flatMap fun e =>
      if bot.unloadFails e then [.sendTraceback]
      else if bot.loadFails e then [.unloadExtension e, .sendTraceback]
      else [.unloadExtension e, .loadExtension e, .sendOk]
  | .unload ext =>
    (extTargets bot ext).flatMap fun e =>
      if bot.unloadFails e then [.sendTraceback] else [.unloadExtension e, .sendOk]
  | .stats => [.sendStats]

/-- `Sudo.cog_check`: `True` for an allow-listed author; otherwise it
sends the Owner-only embed and returns `None` (falsy, so the host
framework blocks the command body). -/
def cog_check (devs : List Nat) (authorId : Nat) : Bool × List SudoEffect :=
  if authorId ∈ devs then (true, []) else (false, [.sendOwnerOnly])

/-- One invocation of a sudo command through the host framework: the
cog-level check runs first and gates the command body. -/
def invoke_sudo (devs : List Nat) (bot : BotState) (authorId : Nat) (cmd : SudoCmd) :
    List SudoEffect :=
  let check := cog_check devs authorId
  if check.1 then check.2 ++ sudoBody devs bot authorId cmd else check.2

/-- A member subject used in concrete instances. -/
def exMemberY : Subject := ⟨.member, 42⟩

/-- A role subject used in concrete instances. -/
def exRoleX : Subject := ⟨.role, 7⟩

/-- A valuation that sets only `send_messages`, to the given tri-state. -/
def sendMsgOnly (b : Option Bool) : String → Option Bool :=
  fun n => if n = "send_messages" then b else none

/-- A plain text channel. -/
def exTextBefore : ChannelSnapshot := { kind := .text, id := 10, name := "general" }

/-- The same text channel renamed, with an all-unset overwrite added
(so the overwrite mapping differs while no individual permission does). -/
def exTextAfterRenamed : ChannelSnapshot :=
  { exTextBefore with name := "general-renamed", overwrites := [(exMemberY, emptyOverwrite)] }

/-- A channel of an unknown kind (not text/voice/category) with a
`send_messages` deny for a member. -/
def exOtherBefore : ChannelSnapshot :=
  { kind := .other, id := 11, name := "stage-room",
    overwrites := [(exMemberY, mkOverwrite (sendMsgOnly (some false)))] }

/-- The unknown-kind channel after flipping that deny to an allow. -/
def exOtherAfter : ChannelSnapshot :=
  { exOtherBefore with overwrites := [(exMemberY, mkOverwrite (sendMsgOnly (some true)))] }

/-- A text channel with an unchanged role overwrite and a member
overwrite denying `send_messages`. -/
def exPermBefore : ChannelSnapshot :=
  { kind := .text, id := 12, name := "chat",
    overwrites := [(exRoleX, mkOverwrite (fun _ => none)),
                   (exMemberY, mkOverwrite (sendMsgOnly (some false)))] }

/-- The same channel after the member's `send_messages` flips to allow. -/
def exPermAfter : ChannelSnapshot :=
  { exPermBefore with
    overwrites := [(exRoleX, mkOverwrite (fun _ => none)),
                   (exMemberY, mkOverwrite (sendMsgOnly (some true)))] }

/-- A text channel with no topic. -/
def exTopicBefore : ChannelSnapshot := { kind := .text, id := 13, name := "chat" }

/-- The same channel after a topic was set. -/
def exTopicAfter : ChannelSnapshot := { exTopicBefore with topic := some "rules and info" }

/-- A category channel snapshot (Python object 1). -/
def exCatBefore : ChannelSnapshot :=
  { kind := .category, objectId := 1, id := 14, name := "Archive" }

/-- A second snapshot of the same category channel: identical in every
attribute and overwrite, but a distinct Python object (object 2), as
the event dispatcher always delivers. -/
def exCatAfter : ChannelSnapshot := { exCatBefore with objectId := 2 }

/-- A guild holding two channels. -/
def exGuild : Guild := ⟨[100, 200]⟩

/-- A bot state whose extension operations all succeed. -/
def exBot : BotState := ⟨["bot.cogs.sudo"], fun _ => false, fun _ => false⟩

/-- A concrete member. -/
def exMember : Member := ⟨99, "cdn.example/avatar.png"⟩

/-- A voice state inside a channel. -/
def exVoiceBefore : VoiceState := ⟨false, some "General Voice", false, false⟩

/-- The voice state after disconnecting. -/
def exVoiceAfter : VoiceState := ⟨false, none, false, false⟩

theorem filterMap_ite_eq_filter_map {α β : Type} (p : α → Prop) [DecidablePred p]
    (f : α → β) (l : List α) :
    (l.filterMap fun x => if p x then none else some (f x)) =
      (l.filter fun x => decide ¬ p x).map f := by
  induction l with
  | nil => rfl
  | cons a t ih =>
    by_cases h : p a <;>
      simp only [List.filterMap_cons, List.filter_cons, h, if_pos, if_neg,
        decide_not, decide_eq_true_eq, not_true, not_false_iff, ih] <;>
      simp [h, ih]

theorem map_ne_of_mem {α β : Type} (f g : α → β) (l : List α) (x : α)
    (hx : x ∈ l) (h : f x ≠ g x) : l.map f ≠ l.map g := by
  intro he
  induction l with
  | nil => cases hx
  | cons a t ih =>
    rcases List.mem_cons.mp hx with rfl | hx'
    · exact h (by injection he)
    · exact ih hx' (by injection he)

theorem optStrVal_inj (x y : Option String) : optStrVal x = optStrVal y ↔ x = y := by
  cases x <;> cases y <;> simp [optStrVal]

theorem fieldDiffPairs_eq (cb ca : ChannelSnapshot) (check_params : List CheckParam) :
    fieldDiffPairs cb ca check_params =
      (check_params.filter fun p => decide ¬ (p.value cb = p.value ca)).map
        (fun p => ("**" ++ p.label ++ ":** " ++ (p.value cb).render,
                   "**" ++ p.label ++ ":** " ++ (p.value ca).render)) := by
  unfold fieldDiffPairs
  exact filterMap_ite_eq_filter_map (fun p => p.value cb = p.value ca) _ check_params

theorem make_channel_update_embed_of_overwrites_eq (cb ca : ChannelSnapshot)
    (h : cb.overwrites = ca.overwrites) :
    make_channel_update_embed cb ca =
      .ok ((match cb.kind with
            | .text =>
              specific_channel_update_embed cb ca "Text Channel updated" textCheckParams
            | .voice =>
              specific_channel_update_embed cb ca "Voice Channel updated" voiceCheckParams
            | .category =>
              specific_channel_update_embed cb ca "Category Channel updated" categoryCheckParams
            | .other => none).map fun e : Embed => { e with hasTimestamp := true }) := by
  unfold make_channel_update_embed
  rw [if_neg (by simp [h])]
  cases hk : cb.kind <;> simp [hk]

/-- Claim C3: when the external store has no configured log-channel id
for the guild and category (it answers with its sentinel absent id),
`send_log` returns false, performs no channel send, and raises no
error. -/
theorem send_log_absent_store (g : Guild) :
    send_log none g = (false, none) := rfl

/-- Claim C4: when the store answers with a configured channel id that
does not resolve against the guild's current channel list
(`guild.get_channel` yields nothing), `send_log` returns false and
performs no send. -/
theorem send_log_unresolved_channel (g : Guild) (cid : Nat)
    (h : g.get_channel cid = none) :
    send_log (some cid) g = (false, none) := by
  simp only [send_log]
  rw [h]

/-- Witness for claim C4: channel id 999 is not in the example guild. -/
theorem send_log_unresolved_channel_witness :
    exGuild.get_channel 999 = none ∧ send_log (some 999) exGuild = (false, none) :=
  ⟨by decide, send_log_unresolved_channel exGuild 999 (by decide)⟩

/-- Claim C9: an invocation of any administrative sudo command
(shutdown, restart, load, reload, unload, stats) by an author whose id
is not in the allow-list `config.devs` performs none of the command's
effects — only the Owner-only refusal is sent — and in particular the
bot's close operation is never invoked. -/
theorem sudo_requires_allowlist
    (devs : List Nat) (bot : BotState) (authorId : Nat) (cmd : SudoCmd)
    (h : authorId ∉ devs) :
    invoke_sudo devs bot authorId cmd = [.sendOwnerOnly] ∧
    SudoEffect.closeBot ∉ invoke_sudo devs bot authorId cmd := by
  have h1 : invoke_sudo devs bot authorId cmd = [.sendOwnerOnly] := by
    simp [invoke_sudo, cog_check, h]
  exact ⟨h1, by rw [h1]; simp⟩

/-- Witness for claim C9: author 2 is outside the allow-list [1],
so a `sudo shutdown` invocation only produces the refusal message. -/
theorem sudo_requires_allowlist_witness :
    invoke_sudo [1] exBot 2 .shutdown = [.sendOwnerOnly] ∧
    SudoEffect.closeBot ∉ invoke_sudo [1] exBot 2 .shutdown :=
  sudo_requires_allowlist [1] exBot 2 .shutdown (by decide)

/-- Claim C10: on a voice-state update where the channel changed, the
conditional expression in the source applies to the entire concatenated
description, so when the user left voice (no after-channel) the emitted
"User left voice channel" embed's description is the empty string —
user mention and previous channel name both omitted; both appear only
when an after-channel is present. -/
theorem voice_leave_empty_description
    (m : Member) (before after : VoiceState)
    (hafk : before.afk = after.afk)
    (hch : before.channel ≠ after.channel) :
    (after.channel = none →
      on_voice_state_update m before after = some
        { title := "User left voice channel", description := "", color := .blue,
          thumbnail := some m.avatar_url }) ∧
    (∀ c, after.channel = some c →
      on_voice_state_update m before after = some
        { title := "User changed channels"
          description := "**User:** " ++ m.mention ++ "\n**Channel:** "
            ++ renderOptChannel before.channel ++ "\n**New Channel:** " ++ c
          color := .blue
          thumbnail := some m.avatar_url }) := by
  constructor
  · intro hnone
    unfold on_voice_state_update
    rw [if_neg (by simp [hafk]), if_pos hch, hnone]
    rfl
  · intro c hsome
    unfold on_voice_state_update
    rw [if_neg (by simp [hafk]), if_pos hch, hsome]
    simp [renderOptChannel]

/-- Witness for claim C10: a member disconnects from "General Voice";
the emitted embed has the empty description. -/
theorem voice_leave_empty_description_witness :
    on_voice_state_update exMember exVoiceBefore exVoiceAfter = some
      { title := "User left voice channel", description := "", color := .blue,
        thumbnail := some exMember.avatar_url } :=
  (voice_leave_empty_description exMember exVoiceBefore exVoiceAfter
    (by decide) (by decide)).1 rfl

/-- Counterexample to claim C1: these two text-channel snapshots have
differing permission-overwrite mappings (an all-unset overwrite was
added), yet `make_channel_update_embed` performs field-diffing and
returns the field-diff embed for the rename — not a permission-diff
embed — so "permission mapping differs ⇒ permission-diff embed, no
field-diffing" is false as stated. -/
theorem perm_field_exclusivity_counterexample :
    exTextBefore.overwrites ≠ exTextAfterRenamed.overwrites ∧
    make_channel_update_embed exTextBefore exTextAfterRenamed = .ok (some
      { title := "Text Channel updated"
        description := "**Channel:** <#10>"
        color := .dark_blue
        fields :=
          [{ name := "Before", value := "**Name:** general", inline := true },
           { name := "After", value := "**Name:** general-renamed", inline := true }]
        hasTimestamp := true }) :=
  ⟨by decide, by rfl⟩

/-- Claim C1 (amended): if the permission-overwrite mappings differ AND
the permission diff yields at least one changed-permission line (it
returns an embed), then `make_channel_update_embed` returns exactly that
permission-diff embed (timestamped) and no field-diff content; when the
permission diff yields no line, field-diffing proceeds instead. -/
theorem perm_diff_embed_skips_fields
    (cb ca : ChannelSnapshot) (e : Embed)
    (hov : cb.overwrites ≠ ca.overwrites)
    (hperm : channel_permissions_diff_embed cb ca = .ok (some e)) :
    make_channel_update_embed cb ca = .ok (some { e with hasTimestamp := true }) := by
  unfold make_channel_update_embed
  rw [if_pos hov, hperm]
  simp

/-- Witness for claim C1 (amended): a `send_messages` flip produces the
permission-diff embed and the update embed is exactly it, timestamped. -/
theorem perm_diff_embed_skips_fields_witness :
    exPermBefore.overwrites ≠ exPermAfter.overwrites ∧
    make_channel_update_embed exPermBefore exPermAfter = .ok (some
      { title := "Text channel permissions updated"
        description := "<#12> permissions have been updated.\n\n**Overwrite changes for <@42>:**\n**`Send messages:`** ❌ ➜ ✅"
        color := .dark_blue
        hasTimestamp := true }) :=
  ⟨by decide, perm_diff_embed_skips_fields exPermBefore exPermAfter
    { title := "Text channel permissions updated"
      description := "<#12> permissions have been updated.\n\n**Overwrite changes for <@42>:**\n**`Send messages:`** ❌ ➜ ✅"
      color := .dark_blue }
    (by decide) (by rfl)⟩

/-- Claim C2 (code bug): the formatter is NOT total. On a pair of
snapshots of an unknown entity kind (not text/voice/category) whose
overwrites differ with an actual changed permission, building the
permission embed reads the never-assigned local `channel_type` and
raises `UnboundLocalError`, where the spec promises no error on any
input. -/
theorem unknown_kind_perm_change_errors :
    make_channel_update_embed exOtherBefore exOtherAfter =
      .error "UnboundLocalError: local variable channel_type referenced before assignment" := by
  rfl

theorem intercalate_single (s a : String) : String.intercalate s [a] = a := rfl

theorem intercalate_pair (s a b : String) : String.intercalate s [a, b] = a ++ s ++ b := rfl

/-- Claim C6: for every pair of text-channel snapshots with identical
overwrites differing only in the topic attribute, the update embed has
exactly one Before line and one After line, both labeled "Topic", with
the respective values. -/
theorem topic_only_diff_embed
    (cb ca : ChannelSnapshot)
    (hkind : cb.kind = .text)
    (hov : cb.overwrites = ca.overwrites)
    (hname : cb.name = ca.name)
    (hnsfw : cb.is_nsfw = ca.is_nsfw)
    (hslow : cb.slowmode_delay = ca.slowmode_delay)
    (hcat : cb.category = ca.category)
    (htopic : cb.topic ≠ ca.topic) :
    make_channel_update_embed cb ca = .ok (some
      { title := "Text Channel updated"
        description := "**Channel:** " ++ ca.mention
        color := .dark_blue
        fields :=
          [{ name := "Before", value := "**Topic:** " ++ (optStrVal cb.topic).render,
             inline := true },
           { name := "After", value := "**Topic:** " ++ (optStrVal ca.topic).render,
             inline := true }]
        hasTimestamp := true }) := by
  rw [make_channel_update_embed_of_overwrites_eq cb ca hov, hkind]
  have hpairs : fieldDiffPairs cb ca textCheckParams =
      [("**Topic:** " ++ (optStrVal cb.topic).render,
        "**Topic:** " ++ (optStrVal ca.topic).render)] := by
    simp [fieldDiffPairs, textCheckParams, List.filterMap, hname, hnsfw, hslow, hcat,
      (optStrVal_inj cb.topic ca.topic).not.mpr htopic]
  simp [specific_channel_update_embed, hpairs, intercalate_single]

/-- Witness for claim C6: setting a topic on a previously topic-less
text channel yields the single-line Topic diff embed. -/
theorem topic_only_diff_embed_witness :
    make_channel_update_embed exTopicBefore exTopicAfter = .ok (some
      { title := "Text Channel updated"
        description := "**Channel:** " ++ exTopicAfter.mention
        color := .dark_blue
        fields :=
          [{ name := "Before",
             value := "**Topic:** " ++ (optStrVal exTopicBefore.topic).render,
             inline := true },
           { name := "After",
             value := "**Topic:** " ++ (optStrVal exTopicAfter.topic).render,
             inline := true }]
        hasTimestamp := true }) :=
  topic_only_diff_embed exTopicBefore exTopicAfter rfl rfl rfl rfl rfl rfl (by decide)

/-- Claim C7 (code bug): identical snapshots do NOT always yield
nothing. `exCatAfter` agrees with `exCatBefore` on every attribute and
overwrite — they differ only in Python object identity, as the two
snapshots of a real update event always do — yet the formatter emits a
"Category Channel updated" embed with one NSFW line per column: the
category branch lists `is_nsfw` without the calling transform the text
branch uses, so the compared values are bound methods of distinct
objects, which always compare unequal and render as
`<bound method ...>`. The claim (identical snapshots produce no embed)
states the clear intent; the missing `()` is the slip. -/
theorem identical_category_snapshots_emit_embed :
    ({ exCatBefore with objectId := exCatAfter.objectId } = exCatAfter) ∧
    make_channel_update_embed exCatBefore exCatAfter = .ok (some
      { title := "Category Channel updated"
        description := "**Channel:** <#14>"
        color := .dark_blue
        fields :=
          [{ name := "Before"
             value := "**NSFW:** <bound method CategoryChannel.is_nsfw of <CategoryChannel object 1>>"
             inline := true },
           { name := "After"
             value := "**NSFW:** <bound method CategoryChannel.is_nsfw of <CategoryChannel object 2>>"
             inline := true }]
        hasTimestamp := true }) :=
  ⟨rfl, rfl⟩

/-- Claim C8: whenever a field-diff embed is produced, its Before and
After columns hold the same number of lines — both are rendered from
one list of changed fields, filtered from the declared parameters in
declaration order, so labels match at each position. -/
theorem field_diff_columns_aligned
    (cb ca : ChannelSnapshot) (title : String) (check_params : List CheckParam) (e : Embed)
    (h : specific_channel_update_embed cb ca title check_params = some e) :
    ((fieldDiffPairs cb ca check_params).map Prod.fst).length =
      ((fieldDiffPairs cb ca check_params).map Prod.snd).length ∧
    e.fields =
      [{ name := "Before"
         value := String.intercalate "\n"
           ((check_params.filter fun p => decide ¬ (p.value cb = p.value ca)).map
             fun p => "**" ++ p.label ++ ":** " ++ (p.value cb).render)
         inline := true },
       { name := "After"
         value := String.intercalate "\n"
           ((check_params.filter fun p => decide ¬ (p.value cb = p.value ca)).map
             fun p => "**" ++ p.label ++ ":** " ++ (p.value ca).render)
         inline := true }] := by
  refine ⟨by simp, ?_⟩
  simp only [specific_channel_update_embed] at h
  by_cases hp : fieldDiffPairs cb ca check_params = []
  · rw [if_pos hp] at h
    cases h
  · rw [if_neg hp] at h
    have he := (Option.some.injEq _ _).mp h
    rw [← he]
    simp [fieldDiffPairs_eq, List.map_map, Function.comp_def]

/-- Witness for claim C8: the rename diff produces aligned one-line
Before/After columns labeled "Name". -/
theorem field_diff_columns_aligned_witness :
    ((fieldDiffPairs exTextBefore exTextAfterRenamed textCheckParams).map Prod.fst).length =
      ((fieldDiffPairs exTextBefore exTextAfterRenamed textCheckParams).map Prod.snd).length ∧
    ({ title := "Text Channel updated"
       description := "**Channel:** <#10>"
       color := .dark_blue
       fields :=
         [{ name := "Before", value := "**Name:** general", inline := true },
          { name := "After", value := "**Name:** general-renamed", inline := true }] } : Embed).fields =
      [{ name := "Before"
         value := String.intercalate "\n"
           ((textCheckParams.filter fun p =>
              decide ¬ (p.value exTextBefore = p.value exTextAfterRenamed)).map
             fun p => "**" ++ p.label ++ ":** " ++ (p.value exTextBefore).render)
         inline := true },
       { name := "After"
         value := String.intercalate "\n"
           ((textCheckParams.filter fun p =>
              decide ¬ (p.value exTextBefore = p.value exTextAfterRenamed)).map
             fun p => "**" ++ p.label ++ ":** " ++ (p.value exTextAfterRenamed).render)
         inline := true }] :=
  field_diff_columns_aligned exTextBefore exTextAfterRenamed "Text Channel updated"
    textCheckParams
    { title := "Text Channel updated"
      description := "**Channel:** <#10>"
      color := .dark_blue
      fields :=
        [{ name := "Before", value := "**Name:** general", inline := true },
         { name := "After", value := "**Name:** general-renamed", inline := true }] }
    (by rfl)

theorem overwriteDiffLines_mk (v w : String → Option Bool) :
    overwriteDiffLines (mkOverwrite v) (mkOverwrite w) =
      (permissionNames.filter fun n => decide ¬ (v n = w n)).map
        (fun n => "**`" ++ permDisplayName n ++ ":`** "
          ++ triEmoji (v n) ++ " ➜ " ++ triEmoji (w n)) := by
  unfold overwriteDiffLines mkOverwrite
  rw [List.zip_map', List.filterMap_map]
  exact filterMap_ite_eq_filter_map (fun n => v n = w n) _ permissionNames

/-- Claim C5: in a permission-overwrite union where subject X's
overwrite is unchanged and subject Y's `send_messages` flips
false → true (all of Y's other permissions unchanged), the permission
diff consists of exactly one subject header line naming Y and exactly
one permission line `Send messages: ❌ ➜ ✅` (symbols true→✅, false→❌,
unset→⬜), and the produced permission-diff embed contains exactly
these two lines. -/
theorem permission_diff_single_flip
    (X Y : Subject) (hXY : X ≠ Y)
    (vX vY vY' : String → Option Bool)
    (hb : vY "send_messages" = some false)
    (ha : vY' "send_messages" = some true)
    (hoth : ∀ n, n ≠ "send_messages" → vY n = vY' n)
    (cb ca : ChannelSnapshot)
    (hcb : cb.overwrites = [(X, mkOverwrite vX), (Y, mkOverwrite vY)])
    (hca : ca.overwrites = [(X, mkOverwrite vX), (Y, mkOverwrite vY')]) :
    permDiffLines cb ca =
      ["**Overwrite changes for " ++ Y.mention ++ ":**",
       "**`Send messages:`** ❌ ➜ ✅"] ∧
    (∀ ct, channelTypeName cb.kind = some ct →
      channel_permissions_diff_embed cb ca = .ok (some
        { title := ct ++ " permissions updated"
          description := ca.mention ++ " permissions have been updated.\n\n"
            ++ ("**Overwrite changes for " ++ Y.mention ++ ":**")
            ++ "\n" ++ "**`Send messages:`** ❌ ➜ ✅"
          color := .dark_blue })) := by
  have hne : mkOverwrite vY ≠ mkOverwrite vY' :=
    map_ne_of_mem (fun n => (n, vY n)) (fun n => (n, vY' n)) permissionNames
      "send_messages" (by decide) (by simp [hb, ha])
  have hsub : overwriteSubjects cb ca = [X, Y] := by
    simp [overwriteSubjects, hcb, hca]
  have hbX : cb.overwrites_for X = mkOverwrite vX := by
    simp [ChannelSnapshot.overwrites_for, hcb, lookupOverwrite]
  have haX : ca.overwrites_for X = mkOverwrite vX := by
    simp [ChannelSnapshot.overwrites_for, hca, lookupOverwrite]
  have hbY : cb.overwrites_for Y = mkOverwrite vY := by
    simp [ChannelSnapshot.overwrites_for, hcb, lookupOverwrite, hXY]
  have haY : ca.overwrites_for Y = mkOverwrite vY' := by
    simp [ChannelSnapshot.overwrites_for, hca, lookupOverwrite, hXY]
  have hfilter : (permissionNames.filter fun n => decide ¬ (vY n = vY' n))
      = ["send_messages"] := by
    have hq : (fun n => decide ¬ (vY n = vY' n))
        = (fun n => decide (n = "send_messages")) := by
      funext n
      by_cases hn : n = "send_messages"
      · subst hn; simp [hb, ha]
      · simp [hoth n hn, hn]
    rw [hq]
    decide
  have hlines : permDiffLines cb ca =
      ["**Overwrite changes for " ++ Y.mention ++ ":**",
       "**`Send messages:`** ❌ ➜ ✅"] := by
    unfold permDiffLines
    rw [hsub]
    simp only [List.flatMap_cons, List.flatMap_nil, hbX, haX, hbY, haY]
    rw [if_pos trivial, if_neg hne, overwriteDiffLines_mk, hfilter]
    simp only [List.nil_append, List.append_nil, List.map_cons, List.map_nil]
    rw [hb, ha]
    rfl
  refine ⟨hlines, ?_⟩
  intro ct hct
  simp only [channel_permissions_diff_embed]
  rw [hlines, hct]
  simp [intercalate_pair, String.append_assoc]

/-- Witness for claim C5: role 7 unchanged, member 42's `send_messages`
flips false → true on a text channel. -/
theorem permission_diff_single_flip_witness :
    permDiffLines exPermBefore exPermAfter =
      ["**Overwrite changes for " ++ exMemberY.mention ++ ":**",
       "**`Send messages:`** ❌ ➜ ✅"] ∧
    channel_permissions_diff_embed exPermBefore exPermAfter = .ok (some
      { title := "Text channel" ++ " permissions updated"
        description := exPermAfter.mention ++ " permissions have been updated.\n\n"
          ++ ("**Overwrite changes for " ++ exMemberY.mention ++ ":**")
          ++ "\n" ++ "**`Send messages:`** ❌ ➜ ✅"
        color := .dark_blue }) :=
  ⟨(permission_diff_single_flip exRoleX exMemberY (by decide)
      (fun _ => none) (sendMsgOnly (some false)) (sendMsgOnly (some true))
      rfl rfl (fun n hn => by simp [sendMsgOnly, hn])
      exPermBefore exPermAfter rfl rfl).1,
   (permission_diff_single_flip exRoleX exMemberY (by decide)
      (fun _ => none) (sendMsgOnly (some false)) (sendMsgOnly (some true))
      rfl rfl (fun n hn => by simp [sendMsgOnly, hn])
      exPermBefore exPermAfter rfl rfl).2 "Text channel" rfl⟩
